import Mathlib

/-!
Verification development for the AgMo real-time coordination layer
(backend/agmo/rl/environment.py, backend/agmo/rl/trainer.py,
backend/agmo/websocket/client.py, backend/agmo/websocket/cnn_handler.py).

Numeric values flowing through the system are modelled as rationals (`ℚ`);
`np.linalg.norm` (an external floating-point computation) is abstracted as a
function parameter.  Image pixel buffers are modelled by their identity and
numpy array shape: none of the embedded operations inspect pixel contents.
-/

namespace DroneEnvironment

/-- Raw image bytes arriving in a payload ("image" field, base64).
`id` identifies the bytes; `decodedChannels = none` models
`base64.b64decode`/`Image.open` raising; `some c` models a successful decode
into a PIL image with `c` bands. -/
structure ImgBytes where
  id : Nat
  decodedChannels : Option Nat
deriving DecidableEq

/-- A numpy image array held in an observation: either
`np.zeros((224, 224, 3), dtype=np.uint8)` or the array obtained from decoding
inbound bytes, resizing to 224x224, and calling `np.array`. -/
inductive ImgArr where
  | zeros : ImgArr
  | fromBytes (id : Nat) (channels : Nat) : ImgArr
deriving DecidableEq

/-- Shape of the numpy array backing an `ImgArr`.  `np.array` of a
single-band PIL image yields a 2-D `(224, 224)` array; a `c`-band image
yields `(224, 224, c)`. -/
def ImgArr.shape : ImgArr → List Nat
  | .zeros => [224, 224, 3]
  | .fromBytes _ c => if c = 1 then [224, 224] else [224, 224, c]

/-- One entry of the inbound "plants" list: a dict with an optional
"position" field (`plant.get("position", [0, 0, 0])`). -/
structure PlantEntry where
  position : Option (List ℚ)
deriving DecidableEq

/-- The cached observation dict built by `DroneEnvironment`:
`{"image": ..., "drone_state": ..., "plant_positions": ...}`. -/
structure Obs where
  image : ImgArr
  drone_state : List ℚ
  plant_positions : List (List ℚ)
deriving DecidableEq

/-- Embedding of `DroneEnvironment._get_default_observation`: zero image, drone state
`[0, 5, 0, 0, 0, 0, 0, 0, 0]`, and a zeroed 20x3 plant-position array. -/
def default_observation : Obs :=
  { image := ImgArr.zeros
    drone_state := [0, 5, 0, 0, 0, 0, 0, 0, 0]
    plant_positions := List.replicate 20 [0, 0, 0] }

/-- An inbound observation payload (`observation_data` dict) as far as
`update_observation` reads it: optional "image", "position", "velocity" and
"plants" fields. -/
structure Payload where
  image : Option ImgBytes
  position : Option (List ℚ)
  velocity : Option (List ℚ)
  plants : Option (List PlantEntry)
deriving DecidableEq

/-- One iteration of the plant loop body
`plant_positions[i] = plant.get("position", [0, 0, 0])`: numpy accepts a
length-3 row, broadcasts a length-1 row, and raises `ValueError` on any
other length. -/
def plantRow (plant : PlantEntry) : Except Unit (List ℚ) :=
  let pos := plant.position.getD [0, 0, 0]
  if pos.length = 3 then Except.ok pos
  else if pos.length = 1 then Except.ok (List.replicate 3 (pos.getD 0 0))
  else Except.error ()

/-- The plant-positions array built by `update_observation`: rows 0..k-1 are
assigned from the first (at most 20) plants, the rest keep their zeros from
`np.zeros((20, 3))`.  A raising assignment aborts the whole update. -/
def buildPlantPositions (plants : List PlantEntry) : Except Unit (List (List ℚ)) := do
  let rows ← (plants.take 20).mapM plantRow
  pure (rows ++ List.replicate (20 - rows.length) [0, 0, 0])

/-- The body of the `try:` block of `DroneEnvironment.update_observation`:
decode the image (or use a zero image), read "position" (default
`[0, 5, 0]`) and "velocity" (default `[0, 0, 0]`), form
`drone_state = position + velocity + rotation` with `rotation = [0, 0, 0]`,
and build the plant-positions array.  `Except.error` models an exception
reaching the `except:` clause. -/
def processObservation (p : Payload) : Except Unit Obs := do
  let image_array ← match p.image with
    | some b =>
        match b.decodedChannels with
        | some c => pure (ImgArr.fromBytes b.id c)
        | none => Except.error ()
    | none => pure ImgArr.zeros
  let position := p.position.getD [0, 5, 0]
  let velocity := p.velocity.getD [0, 0, 0]
  let rotation : List ℚ := [0, 0, 0]
  let drone_state := position ++ velocity ++ rotation
  let plant_positions ← buildPlantPositions (p.plants.getD [])
  pure { image := image_array, drone_state := drone_state, plant_positions := plant_positions }

/-- Embedding of `DroneEnvironment.update_observation` (named `apply_inbound` in the spec): on
success the cached observation becomes the processed payload; on any
exception the handler catches it and stores the default observation. -/
def update_observation (p : Payload) (current : Option Obs) : Option Obs :=
  match processObservation p with
  | Except.ok o => some o
  | Except.error _ => some default_observation

/-- Embedding of `DroneEnvironment._is_terminated`: crash when `position[1] < 0.5`,
out-of-bounds when `abs(position[0]) > 30 or abs(position[2]) > 30`
(where `position = drone_state[:3]`, so `position[i] = drone_state[i]`). -/
def is_terminated (obs : Obs) : Bool :=
  if obs.drone_state.getD 1 0 < (1 : ℚ)/2 then true
  else if 30 < |obs.drone_state.getD 0 0| ∨ 30 < |obs.drone_state.getD 2 0| then true
  else false

/-- Pointwise list subtraction, modelling `position - self.last_position`
on shape-(3,) numpy arrays. -/
def listSub (xs ys : List ℚ) : List ℚ := List.zipWith (· - ·) xs ys

/-- Embedding of `DroneEnvironment._calculate_reward`, parametrized by `norm` standing
for `np.linalg.norm`.  Returns the reward together with the new
`last_position` (`position.copy()`). -/
def calculate_reward (norm : List ℚ → ℚ) (obs : Obs) (action : List ℚ)
    (last_position : List ℚ) : ℚ × List ℚ :=
  let drone_state := obs.drone_state
  let position := drone_state.take 3
  let velocity := (drone_state.drop 3).take 3
  let altitude := position.getD 1 0
  let rewardAlt : ℚ := if 1 < altitude then 1/10 else -1
  let distance_moved := norm (listSub position last_position)
  let rewardExplore : ℚ := min (distance_moved * (1/10)) (1/2)
  let speed := norm velocity
  let rewardSpeed : ℚ := if 5 < speed then -(1/10) else 0
  let energy_cost : ℚ := ((action.map (fun a => |a|)).sum) * (1/100)
  (rewardAlt + rewardExplore + rewardSpeed - energy_cost, position)

/-- Mutable state of a `DroneEnvironment` instance. -/
structure EnvState where
  current_observation : Option Obs
  episode_step : Nat
  max_episode_steps : Nat
  total_reward : ℚ
  plants_identified : List Nat
  last_position : List ℚ
deriving DecidableEq

/-- State of a freshly constructed `DroneEnvironment` (`__init__`). -/
def initEnv : EnvState :=
  { current_observation := none
    episode_step := 0
    max_episode_steps := 1000
    total_reward := 0
    plants_identified := []
    last_position := [0, 5, 0] }

/-- Embedding of `DroneEnvironment.reset`: clears the episode state, installs the
default observation and returns it.  The fire-and-forget
`send_reset` websocket call is external I/O and has no effect on the
environment state. -/
def reset (s : EnvState) : EnvState × Obs :=
  let s' := { s with
    episode_step := 0
    total_reward := 0
    plants_identified := []
    last_position := [0, 5, 0]
    current_observation := some default_observation }
  (s', default_observation)

/-- The 5-tuple `(observation, reward, terminated, truncated, info)`
returned by `DroneEnvironment.step` (info flattened into its three keys). -/
structure StepOut where
  observation : Obs
  reward : ℚ
  terminated : Bool
  truncated : Bool
  info_episode_step : Nat
  info_total_reward : ℚ
  info_plants_identified : Nat
deriving DecidableEq

/-- Embedding of `DroneEnvironment.step`: increments the step counter, reads the latest
cached observation (or the default), accumulates the reward, and computes
`terminated`/`truncated` independently.  The fire-and-forget `send_action`
websocket call is external I/O with no effect on the environment state. -/
def step (norm : List ℚ → ℚ) (s : EnvState) (action : List ℚ) : EnvState × StepOut :=
  let episode_step := s.episode_step + 1
  let observation := s.current_observation.getD default_observation
  let rl := calculate_reward norm observation action s.last_position
  let total_reward := s.total_reward + rl.1
  let terminated := is_terminated observation
  let truncated := decide (s.max_episode_steps ≤ episode_step)
  ({ s with
      episode_step := episode_step
      total_reward := total_reward
      last_position := rl.2 },
   { observation := observation
     reward := rl.1
     terminated := terminated
     truncated := truncated
     info_episode_step := episode_step
     info_total_reward := total_reward
     info_plants_identified := s.plants_identified.length })

/-- An inbound observation arriving over the websocket followed by one
`step` call: the dispatch path caches the observation, then the trainer
steps. -/
def stepWithObs (norm : List ℚ → ℚ) (s : EnvState) (o : Obs) (action : List ℚ) :
    EnvState × StepOut :=
  step norm { s with current_observation := some o } action

end DroneEnvironment

namespace RLTrainer

/-- Outcome of `RLTrainer.start_training`: either a background task was
spawned, or the early-return "Training already in progress" branch was
taken (the AlreadyRunning result of the spec). -/
inductive StartResult where
  | started
  | alreadyRunning
deriving DecidableEq

/-- Outcome of `RLTrainer.stop_training`: either training was stopped, or
the early-return "No training in progress" branch was taken (the
NotRunning result of the spec). -/
inductive StopResult where
  | stopped
  | notRunning
deriving DecidableEq

/-- Mutable state of an `RLTrainer` relevant to lifecycle control:
the `is_training` flag, the stored background-task handle, the ids of
tasks whose cancellation was requested, the names passed to a successful
`save_model`, whether `self.model` is set, and a counter of tasks spawned
so far (also used to mint fresh task ids). -/
structure TrainerState where
  is_training : Bool
  training_task : Option Nat
  cancelled : List Nat
  saved : List String
  model : Bool
  tasks_spawned : Nat
deriving DecidableEq

/-- Embedding of `RLTrainer.start_training`: returns early when `is_training` is set;
otherwise sets the flag and spawns one background task via
`asyncio.create_task`, storing its handle. -/
def start_training (s : TrainerState) : TrainerState × StartResult :=
  if s.is_training then (s, StartResult.alreadyRunning)
  else
    ({ s with
        is_training := true
        training_task := some s.tasks_spawned
        tasks_spawned := s.tasks_spawned + 1 },
     StartResult.started)

/-- Embedding of `RLTrainer.save_model`: a no-op warning when no model is present,
otherwise records the checkpoint name (`model.save` succeeding). -/
def save_model (s : TrainerState) (name : String) : TrainerState :=
  if s.model then { s with saved := s.saved ++ [name] } else s

/-- Embedding of `RLTrainer.stop_training`: returns early when `is_training` is clear;
otherwise cancels the stored task (if any), awaits it, clears
`is_training`, and saves an "interrupted" checkpoint. -/
def stop_training (s : TrainerState) : TrainerState × StopResult :=
  if s.is_training then
    let cancelled := match s.training_task with
      | some tid => s.cancelled ++ [tid]
      | none => s.cancelled
    (save_model { s with cancelled := cancelled, is_training := false } "interrupted",
     StopResult.stopped)
  else (s, StopResult.notRunning)

/-- Embedding of `RLTrainer.predict`: the model is an optional prediction function that
may itself raise (`Except.error`).  Without a model, or when
`model.predict` raises, the handler returns `np.zeros(4)`. -/
def predict (model : Option (DroneEnvironment.Obs → Except String (List ℚ)))
    (observation : DroneEnvironment.Obs) : List ℚ :=
  match model with
  | none => List.replicate 4 0
  | some m =>
    match m observation with
    | Except.ok action => action
    | Except.error _ => List.replicate 4 0

end RLTrainer

namespace SimulationWebSocketClient

/-- What one iteration of the `connect` loop encounters:
`connectFail` — `websockets.connect` raises one of the caught exception
types (`ConnectionClosed`, `InvalidURI`, `OSError`);
`sessionEnd` — the connection is established and the message loop later
returns after the connection drops (`_handle_messages` catches its own
exceptions and clears `connected`);
`fatal` — an exception outside the caught types reaches the
`except Exception` clause and breaks out of the loop. -/
inductive AttemptOutcome where
  | connectFail
  | sessionEnd
  | fatal
deriving DecidableEq

/-- Connection-lifecycle state of a `SimulationWebSocketClient`. -/
structure LinkState where
  connected : Bool
  websocket : Bool
  reconnect_attempts : Nat
  max_reconnect_attempts : Nat
deriving DecidableEq

/-- State of a freshly constructed client (`__init__`):
not connected, no socket, zero attempts, ceiling 10. -/
def initLink : LinkState :=
  { connected := false
    websocket := false
    reconnect_attempts := 0
    max_reconnect_attempts := 10 }

/-- One iteration of the body of the `while` loop in `connect`.  Returns
the state after the iteration and whether the loop continues.
On success, `connected` is set and the attempt counter reset to zero
before the message loop runs; when the message loop returns the connection
has dropped (`connected` cleared) and the `while` loop goes around again.
On a caught connect failure the counter is incremented and the loop
continues only below the ceiling.  A fatal error breaks immediately. -/
def connectStep (s : LinkState) : AttemptOutcome → LinkState × Bool
  | AttemptOutcome.connectFail =>
    let s' := { s with
      connected := false
      websocket := false
      reconnect_attempts := s.reconnect_attempts + 1 }
    (s', decide (s'.reconnect_attempts < s'.max_reconnect_attempts))
  | AttemptOutcome.sessionEnd =>
    ({ s with websocket := true, connected := false, reconnect_attempts := 0 }, true)
  | AttemptOutcome.fatal => (s, false)

/-- Embedding of `SimulationWebSocketClient.connect`: the `while` loop, driven by the
schedule of outcomes the network delivers.  Also returns how many
iterations (connection attempts) were made. -/
def connect (s : LinkState) : List AttemptOutcome → LinkState × Nat
  | [] => (s, 0)
  | o :: rest =>
    if s.reconnect_attempts < s.max_reconnect_attempts then
      let sc := connectStep s o
      if sc.2 then
        let f := connect sc.1 rest
        (f.1, f.2 + 1)
      else (sc.1, 1)
    else (s, 0)

end SimulationWebSocketClient

namespace CNNWebSocketHandler

/-- The two-headed prediction dict returned by
`plant_model.predict_from_base64`. -/
structure Pred where
  health_prediction : String
  health_confidence : ℚ
  type_prediction : String
  type_confidence : ℚ
  overall_confidence : ℚ
deriving DecidableEq

/-- One entry of the plants list of `response_data`. -/
structure PlantResult where
  plantId : String
  position : List ℚ
  prediction : String
  confidence : ℚ
  plant_type : String
  type_confidence : ℚ
  overall_confidence : ℚ
deriving DecidableEq

/-- A message the handler sends back over the websocket: either an
type-error message or a type-plant_classification
message carrying the per-plant results and the overall prediction. -/
inductive OutMsg where
  | errorMsg (message : String)
  | classification (plants : List PlantResult) (overall : Pred)
deriving DecidableEq

/-- One entry of the `plants` list of the request (a dict with optional
`id` and `position`). -/
structure ReqPlant where
  id : Option String
  position : Option (List ℚ)
deriving DecidableEq

/-- The `data` dict of a `classify_image` request as
`handle_image_classification` reads it. -/
structure ClassifyRequest where
  image : Option String
  position : Option (List ℚ)
  plants : List ReqPlant
deriving DecidableEq

/-- Build one per-plant result from the single image-level prediction. -/
def mkPlantResult (pid : String) (pos : List ℚ) (pr : Pred) : PlantResult :=
  { plantId := pid
    position := pos
    prediction := pr.health_prediction
    confidence := pr.health_confidence
    plant_type := pr.type_prediction
    type_confidence := pr.type_confidence
    overall_confidence := pr.overall_confidence }

/-- Embedding of `CNNWebSocketHandler.handle_image_classification`: the messages sent in
response to one `classify_image` request.  `model_loaded` models
`self.plant_model is not None`; `classify` models
`plant_model.predict_from_base64`, which may raise. -/
def handle_image_classification (model_loaded : Bool)
    (classify : String → Except String Pred) (req : ClassifyRequest) : List OutMsg :=
  if model_loaded = false then [OutMsg.errorMsg "CNN model not loaded"]
  else
    let position := req.position.getD [0, 0, 0]
    match req.image with
    | none => [OutMsg.errorMsg "No image data provided"]
    | some image_base64 =>
      if image_base64 = "" then [OutMsg.errorMsg "No image data provided"]
      else
        match classify image_base64 with
        | Except.error e => [OutMsg.errorMsg ("Classification failed: " ++ e)]
        | Except.ok pr =>
          let plantResults :=
            if req.plants.isEmpty then [mkPlantResult "image_center" position pr]
            else req.plants.map (fun p =>
              mkPlantResult (p.id.getD "unknown") (p.position.getD [0, 0, 0]) pr)
          [OutMsg.classification plantResults pr]

end CNNWebSocketHandler

open DroneEnvironment RLTrainer SimulationWebSocketClient CNNWebSocketHandler

/-- A malformed inbound payload: its single plant entry carries a length-2
position list, so the numpy row assignment raises and the whole update falls
into the except clause. -/
def badPlantPayload : Payload :=
  { image := none, position := none, velocity := none,
    plants := some [{ position := some [1, 2] }] }

/-- A valid cached observation, distinct from the default one. -/
def prevObs : Obs :=
  { image := ImgArr.zeros
    drone_state := [1, 2, 3, 0, 0, 0, 0, 0, 0]
    plant_positions := List.replicate 20 [0, 0, 0] }

/-- A concrete stand-in for `np.linalg.norm` used in witnesses. -/
def norm0 : List ℚ → ℚ := fun _ => 0

/-- An observation with altitude 0.3 (below the 0.5 crash threshold). -/
def obsAlt03 : Obs :=
  { image := ImgArr.zeros
    drone_state := [0, 3/10, 0, 0, 0, 0, 0, 0, 0]
    plant_positions := List.replicate 20 [0, 0, 0] }

/-- An observation with horizontal position 35 on the x axis. -/
def obsX35 : Obs :=
  { image := ImgArr.zeros
    drone_state := [35, 5, 0, 0, 0, 0, 0, 0, 0]
    plant_positions := List.replicate 20 [0, 0, 0] }

/-- An environment state one step short of the episode cap whose cached
observation is terminal (altitude 0.3). -/
def envAtCapWithCrash : EnvState :=
  { current_observation := some obsAlt03
    episode_step := 999
    max_episode_steps := 1000
    total_reward := 0
    plants_identified := []
    last_position := [0, 5, 0] }

/-- A fresh environment whose episode cap is 3. -/
def envMax3 : EnvState := { initEnv with max_episode_steps := 3 }

/-- A trainer that is currently training task 0 and owns a model. -/
def runningTrainer : TrainerState :=
  { is_training := true, training_task := some 0, cancelled := [],
    saved := [], model := true, tasks_spawned := 1 }

/-- The payload of the C8 failing input: a length-2 "position" list and
nothing else. -/
def posLen2Payload : Payload :=
  { image := none, position := some [1, 2], velocity := none, plants := none }

/-- A prediction fixture for classification witnesses. -/
def predSample : Pred :=
  { health_prediction := "healthy", health_confidence := 9/10,
    type_prediction := "maize", type_confidence := 8/10,
    overall_confidence := 85/100 }

/-- A classifier that always succeeds with `predSample`. -/
def classifyConst : String → Except String Pred := fun _ => Except.ok predSample

/-- A classification request carrying an image and zero plants. -/
def reqNoPlants : ClassifyRequest :=
  { image := some "imgdata", position := some [1, 2, 3], plants := [] }

/-- A model whose prediction always raises. -/
def failingModel : Obs → Except String (List ℚ) :=
  fun _ => Except.error "Prediction failed"

/-- C1 counterexample: the plant payload with a length-2 position fails
processing, yet `update_observation` does not leave the previously cached
valid observation unchanged — it replaces it wholesale with the default
observation, altering fields (the drone state) that were present and valid
before. -/
theorem C1_counterexample_failed_payload_overwrites_cache :
    processObservation badPlantPayload = Except.error () ∧
    update_observation badPlantPayload (some prevObs) ≠ some prevObs ∧
    update_observation badPlantPayload (some prevObs) = some default_observation := by
  refine ⟨rfl, ?_, rfl⟩
  decide

/-- C1 (amended): `update_observation` never raises (it is a total
function: every exception inside the try block is caught), and for every
payload whose processing fails it replaces the cached observation with the
full default observation, regardless of what was cached before. -/
theorem C1_amended_failed_payload_yields_default (p : Payload) (current : Option Obs)
    (e : Unit) (h : processObservation p = Except.error e) :
    update_observation p current = some default_observation := by
  unfold update_observation
  rw [h]

/-- C1 witness: the amended theorem applied at the concrete malformed
payload and the concrete previously cached observation. -/
theorem C1_witness :
    processObservation badPlantPayload = Except.error () ∧
    update_observation badPlantPayload (some prevObs) = some default_observation :=
  ⟨rfl, C1_amended_failed_payload_yields_default badPlantPayload (some prevObs) () rfl⟩

/-- C2 counterexample: with the episode counter one short of the cap and a
terminal (altitude 0.3) cached observation, a single `step` returns
`terminated = true` and `truncated = true` simultaneously — the flags are
not mutually exclusive. -/
theorem C2_counterexample_both_flags_true :
    (step norm0 envAtCapWithCrash [0, 0, 0, 0]).2.terminated = true ∧
    (step norm0 envAtCapWithCrash [0, 0, 0, 0]).2.truncated = true := by
  constructor
  · show is_terminated obsAlt03 = true
    norm_num [is_terminated, obsAlt03]
  · rfl

/-- C2 (amended): `terminated` and `truncated` are computed independently —
`terminated` from the cached observation alone and `truncated` from the
incremented step counter against the cap alone — so below the cap
`truncated` is false (and there the two flags are indeed exclusive), but
nothing prevents both from being true when a terminal observation
coincides with reaching the cap. -/
theorem C2_amended_flags_independent (norm : List ℚ → ℚ) (s : EnvState) (a : List ℚ) :
    (step norm s a).2.terminated
        = is_terminated (s.current_observation.getD default_observation) ∧
    (step norm s a).2.truncated = decide (s.max_episode_steps ≤ s.episode_step + 1) ∧
    (s.episode_step + 1 < s.max_episode_steps → (step norm s a).2.truncated = false) := by
  refine ⟨rfl, rfl, fun h => ?_⟩
  show decide (s.max_episode_steps ≤ s.episode_step + 1) = false
  exact decide_eq_false (Nat.not_le.mpr h)

/-- C2 witness: the amended theorem applied at a concrete state below the
cap, where `truncated` is false. -/
theorem C2_witness :
    (0 : Nat) + 1 < 1000 ∧ (step norm0 initEnv [0, 0, 0, 0]).2.truncated = false :=
  ⟨by decide, (C2_amended_flags_independent norm0 initEnv [0, 0, 0, 0]).2.2 (by decide)⟩

/-- C3: a step whose cached observation has altitude 0.3 (below the 0.5
crash threshold) returns `terminated = true`; one whose horizontal position
has magnitude 35 on either horizontal axis (bounds threshold 30) returns
`terminated = true`; and a step on the default mid-range observation
(position `[0, 5, 0]`) returns `terminated = false`. -/
theorem C3_termination_thresholds :
    (∀ (norm : List ℚ → ℚ) (s : EnvState) (a : List ℚ) (o : Obs),
       o.drone_state.getD 1 0 = 3/10 →
       (stepWithObs norm s o a).2.terminated = true) ∧
    (∀ (norm : List ℚ → ℚ) (s : EnvState) (a : List ℚ) (o : Obs),
       |o.drone_state.getD 0 0| = 35 ∨ |o.drone_state.getD 2 0| = 35 →
       (stepWithObs norm s o a).2.terminated = true) ∧
    (∀ (norm : List ℚ → ℚ) (s : EnvState) (a : List ℚ),
       (stepWithObs norm s default_observation a).2.terminated = false) := by
  refine ⟨fun norm s a o h => ?_, fun norm s a o h => ?_, fun norm s a => ?_⟩
  · show is_terminated o = true
    unfold is_terminated
    rw [h]
    norm_num
  · show is_terminated o = true
    have hcond : 30 < |o.drone_state.getD 0 0| ∨ 30 < |o.drone_state.getD 2 0| := by
      rcases h with h | h
      · exact Or.inl (by rw [h]; norm_num)
      · exact Or.inr (by rw [h]; norm_num)
    unfold is_terminated
    by_cases hc : o.drone_state.getD 1 0 < (1 : ℚ)/2
    · rw [if_pos hc]
    · rw [if_neg hc, if_pos hcond]
  · show is_terminated default_observation = false
    norm_num [is_terminated, default_observation]

/-- C3 witness: the three parts of the theorem applied at concrete
observations with altitude 0.3, horizontal position 35, and the default
observation. -/
theorem C3_witness :
    obsAlt03.drone_state.getD 1 0 = 3/10 ∧
    |obsX35.drone_state.getD 0 0| = 35 ∧
    (stepWithObs norm0 initEnv obsAlt03 [0, 0, 0, 0]).2.terminated = true ∧
    (stepWithObs norm0 initEnv obsX35 [0, 0, 0, 0]).2.terminated = true ∧
    (stepWithObs norm0 initEnv default_observation [0, 0, 0, 0]).2.terminated = false :=
  ⟨rfl, by norm_num [obsX35],
   C3_termination_thresholds.1 norm0 initEnv [0, 0, 0, 0] obsAlt03 rfl,
   C3_termination_thresholds.2.1 norm0 initEnv [0, 0, 0, 0] obsX35
     (Or.inl (by norm_num [obsX35])),
   C3_termination_thresholds.2.2 norm0 initEnv [0, 0, 0, 0]⟩

/-- C4: stopping a running trainer succeeds — the stored task is cancelled,
`is_training` is cleared, and an "interrupted" checkpoint is saved — and a
second stop takes the NotRunning early return; starting while a task is
live takes the AlreadyRunning early return and leaves the state (in
particular the number of spawned tasks) unchanged. -/
theorem C4_lifecycle_idempotence (s : TrainerState) (tid : Nat)
    (h : s.is_training = true) (hm : s.model = true) (ht : s.training_task = some tid) :
    (stop_training s).2 = StopResult.stopped ∧
    (stop_training s).1.is_training = false ∧
    tid ∈ (stop_training s).1.cancelled ∧
    "interrupted" ∈ (stop_training s).1.saved ∧
    (stop_training (stop_training s).1).2 = StopResult.notRunning ∧
    (start_training s).2 = StartResult.alreadyRunning ∧
    (start_training s).1 = s := by
  simp [stop_training, start_training, save_model, h, hm, ht]

/-- C4 witness: the theorem applied at a concrete running trainer. -/
theorem C4_witness :
    runningTrainer.is_training = true ∧ runningTrainer.model = true ∧
    runningTrainer.training_task = some 0 ∧
    (stop_training runningTrainer).2 = StopResult.stopped ∧
    (stop_training (stop_training runningTrainer).1).2 = StopResult.notRunning ∧
    (start_training runningTrainer).2 = StartResult.alreadyRunning ∧
    (start_training runningTrainer).1 = runningTrainer := by
  have h := C4_lifecycle_idempotence runningTrainer 0 rfl rfl rfl
  exact ⟨rfl, rfl, rfl, h.1, h.2.2.2.2.1, h.2.2.2.2.2.1, h.2.2.2.2.2.2⟩

/-- C5: starting from a fresh link (ceiling 10), ten consecutive failed
connection attempts exhaust the ceiling: exactly 10 attempts are made, the
remaining schedule is never consumed, and the link ends not connected with
the attempt counter saturated; a link in that failed state makes no
further attempts on any schedule; and every successful connect resets the
reconnect-attempt counter to zero. -/
theorem C5_reconnect_ceiling_and_reset :
    (∀ rest : List AttemptOutcome,
       connect initLink (List.replicate 10 AttemptOutcome.connectFail ++ rest) =
         ({ initLink with reconnect_attempts := 10 }, 10)) ∧
    (∀ sched : List AttemptOutcome,
       connect { initLink with reconnect_attempts := 10 } sched =
         ({ initLink with reconnect_attempts := 10 }, 0)) ∧
    (∀ s : LinkState, (connectStep s AttemptOutcome.sessionEnd).1.reconnect_attempts = 0) := by
  refine ⟨fun rest => rfl, fun sched => ?_, fun s => rfl⟩
  cases sched <;> rfl

/-- C6: for every action, `reset` followed immediately by `step` yields an
info step counter of 1 and `terminated = false`, since `reset` installs the
default (non-crashed) observation. -/
theorem C6_reset_then_step (norm : List ℚ → ℚ) (s : EnvState) (a : List ℚ) :
    (step norm (reset s).1 a).2.info_episode_step = 1 ∧
    (step norm (reset s).1 a).2.terminated = false := by
  constructor
  · rfl
  · show is_terminated default_observation = false
    norm_num [is_terminated, default_observation]

/-- C7: with an episode cap of 3, three consecutive steps from a fresh
reset under non-terminating cached observations return `truncated = false`
on the first and second call and `truncated = true` exactly on the third. -/
theorem C7_truncation_on_third_step (norm : List ℚ → ℚ) (s : EnvState)
    (o1 o2 o3 : Obs) (a1 a2 a3 : List ℚ)
    (hmax : s.max_episode_steps = 3)
    (h1 : is_terminated o1 = false) (h2 : is_terminated o2 = false)
    (h3 : is_terminated o3 = false) :
    (stepWithObs norm (reset s).1 o1 a1).2.truncated = false ∧
    (stepWithObs norm (stepWithObs norm (reset s).1 o1 a1).1 o2 a2).2.truncated = false ∧
    (stepWithObs norm (stepWithObs norm (stepWithObs norm (reset s).1 o1 a1).1 o2 a2).1
        o3 a3).2.truncated = true := by
  refine ⟨?_, ?_, ?_⟩
  · have e : (stepWithObs norm (reset s).1 o1 a1).2.truncated
        = decide (s.max_episode_steps ≤ 1) := rfl
    rw [e, hmax]
    decide
  · have e : (stepWithObs norm (stepWithObs norm (reset s).1 o1 a1).1 o2 a2).2.truncated
        = decide (s.max_episode_steps ≤ 2) := rfl
    rw [e, hmax]
    decide
  · have e : (stepWithObs norm (stepWithObs norm (stepWithObs norm (reset s).1 o1 a1).1
        o2 a2).1 o3 a3).2.truncated = decide (s.max_episode_steps ≤ 3) := rfl
    rw [e, hmax]
    decide

/-- C7 witness: the theorem applied at a concrete environment with cap 3,
the default observation arriving before each step, and zero actions. -/
theorem C7_witness :
    envMax3.max_episode_steps = 3 ∧
    is_terminated default_observation = false ∧
    ((stepWithObs norm0 (reset envMax3).1 default_observation [0, 0, 0, 0]).2.truncated
        = false ∧
     (stepWithObs norm0 (stepWithObs norm0 (reset envMax3).1 default_observation
        [0, 0, 0, 0]).1 default_observation [0, 0, 0, 0]).2.truncated = false ∧
     (stepWithObs norm0 (stepWithObs norm0 (stepWithObs norm0 (reset envMax3).1
        default_observation [0, 0, 0, 0]).1 default_observation [0, 0, 0, 0]).1
        default_observation [0, 0, 0, 0]).2.truncated = true) := by
  have hterm : is_terminated default_observation = false := by
    norm_num [is_terminated, default_observation]
  exact ⟨rfl, hterm,
    C7_truncation_on_third_step norm0 envMax3 default_observation default_observation
      default_observation [0, 0, 0, 0] [0, 0, 0, 0] [0, 0, 0, 0] rfl hterm hterm hterm⟩

/-- C8 (code evaluated at the failing input): the payload whose "position"
field is the length-2 list `[1, 2]` is accepted without any exception, and
the cached observation it produces has a drone-state vector of length 8 —
`position + velocity + rotation` is never length-checked — contradicting
the declared fixed shape `(9,)` of the observation space. -/
theorem C8_code_bug_short_drone_state :
    ((update_observation posLen2Payload none).getD default_observation).drone_state
        = [1, 2, 0, 0, 0, 0, 0, 0] ∧
    ((update_observation posLen2Payload none).getD default_observation).drone_state.length
        ≠ 9 := by
  exact ⟨rfl, by decide⟩

/-- C9: a classification request carrying a (nonempty) image and zero
attached plant positions, handled with the model loaded and the classifier
succeeding, publishes exactly one message: a classification whose plants
list holds exactly one result, tagged `image_center` at the nominal
position of the frame. -/
theorem C9_single_result_when_no_plants (classify : String → Except String Pred)
    (req : ClassifyRequest) (img : String) (pr : Pred)
    (himg : req.image = some img) (hne : img ≠ "")
    (hpl : req.plants = []) (hok : classify img = Except.ok pr) :
    handle_image_classification true classify req =
      [OutMsg.classification
        [mkPlantResult "image_center" (req.position.getD [0, 0, 0]) pr] pr] := by
  simp [handle_image_classification, himg, hne, hpl, hok]

/-- C9 witness: the theorem applied at a concrete request with an image,
no plants, and an always-succeeding classifier. -/
theorem C9_witness :
    reqNoPlants.image = some "imgdata" ∧ reqNoPlants.plants = [] ∧
    classifyConst "imgdata" = Except.ok predSample ∧
    handle_image_classification true classifyConst reqNoPlants =
      [OutMsg.classification
        [mkPlantResult "image_center" [1, 2, 3] predSample] predSample] :=
  ⟨rfl, rfl, rfl,
   C9_single_result_when_no_plants classifyConst reqNoPlants "imgdata" predSample
     rfl (by decide) rfl rfl⟩

/-- C10: `predict` is total — with no model initialized it returns the
zero action vector of length 4, and when the underlying model prediction
raises it also returns the zero action vector of length 4 instead of
propagating the error. -/
theorem C10_predict_fallback_zero_action :
    (∀ obs : Obs, RLTrainer.predict none obs = List.replicate 4 0) ∧
    (∀ (m : Obs → Except String (List ℚ)) (obs : Obs) (e : String),
       m obs = Except.error e →
       RLTrainer.predict (some m) obs = List.replicate 4 0) := by
  refine ⟨fun obs => rfl, fun m obs e h => ?_⟩
  simp [RLTrainer.predict, h]

/-- C10 witness: the theorem applied with no model and with a concrete
always-raising model, at the default observation. -/
theorem C10_witness :
    failingModel default_observation = Except.error "Prediction failed" ∧
    RLTrainer.predict none default_observation = List.replicate 4 0 ∧
    RLTrainer.predict (some failingModel) default_observation = List.replicate 4 0 :=
  ⟨rfl, C10_predict_fallback_zero_action.1 default_observation,
   C10_predict_fallback_zero_action.2 failingModel default_observation
     "Prediction failed" rfl⟩
